import Mathlib

/-!
Shallow embedding of the ymrentals-api core (wallet ledger, rental lifecycle,
sponsorship creation) and proofs about it.

Conventions of the embedding:
* Database tables are Lean lists; `prisma.<table>.findUnique` / `findFirst`
  become `List.find?`, `update` / `updateMany` become `List.map` guarded by the
  `where` condition, and `create` appends to the list.
* Timestamps are integers, milliseconds since the Unix epoch (`Date.getTime`).
* Money amounts are integers (the integral fragment of the JS doubles used by
  the source; none of the verified properties depends on fractional values).
* A NestJS service method that can `throw` becomes a function
  `... → Db → Except Err A × Db`: the second component is the database after
  the call, which is unchanged only when the method throws before its first
  write (Prisma calls in the source are individually committed, so writes made
  before an exception survive it).
* Uninteresting JSON `metadata` payloads are not modelled; they are opaque to
  every verified property.
-/

namespace YmRentals

/-- Milliseconds since the Unix epoch, as produced by JS `Date.getTime()`. -/
abbrev Time := Int

/-- Milliseconds in one day (`1000 * 60 * 60 * 24` in `RentalService.create`). -/
def msPerDay : Int := 86400000

/-- Milliseconds in one hour (used by `cancelExpiredApprovedRentals`). -/
def msPerHour : Int := 3600000

/-- JS `Math.ceil (a / b)` for integer `a` and positive integer `b`. -/
def jsCeilDiv (a b : Int) : Int := -((-a).fdiv b)

/-- JS `x || y` for an optional number `x`: `null`/`undefined` and `0` are
falsy, so they fall through to `y`. -/
def jsOrInt (x : Option Int) (y : Int) : Int :=
  match x with
  | some v => if v = 0 then y else v
  | none => y

/-- JS falsiness of an optional number (`!x` in the source): true when the
value is absent or zero. -/
def intFalsy (x : Option Int) : Bool :=
  match x with
  | some v => v == 0
  | none => true

/-- Enum `WalletTransactionType` from `wallet-transaction.dto.ts`. -/
inductive WalletTransactionType
  | DEPOSIT | WITHDRAWAL | PAYMENT | REFUND
  | PRIORITY_FEE | PROMOTION_FEE | COMMISSION | BONUS
deriving DecidableEq, Repr

/-- Enum `WalletTransactionStatus` from `wallet-transaction.dto.ts`. -/
inductive WalletTransactionStatus
  | PENDING | PROCESSING | COMPLETED | FAILED | CANCELLED | REFUNDED
deriving DecidableEq, Repr

/-- Rental status strings used by `RentalService`. -/
inductive RentalStatus
  | PENDING | APPROVED | REJECTED | CANCELLED | PAID | ACTIVE | COMPLETED | IN_PROGRESS
deriving DecidableEq, Repr

/-- Rental payment status strings used by `RentalService`. -/
inductive PaymentStatus
  | PENDING | PAID
deriving DecidableEq, Repr

/-- Payment receipt status strings used by `RentalService`. -/
inductive ReceiptStatus
  | PENDING | APPROVED | REJECTED
deriving DecidableEq, Repr

/-- Price period strings (`HOURLY`/`DAILY`/`WEEKLY`/`MONTHLY`). -/
inductive PricePeriod
  | HOURLY | DAILY | WEEKLY | MONTHLY
deriving DecidableEq, Repr

/-- Rental payment method strings (`REFERENCE`/`RECEIPT`/`WALLET`). -/
inductive RentalPayMethod
  | REFERENCE | RECEIPT | WALLET
deriving DecidableEq, Repr

/-- Status strings of `AdSponsorship` used by `SponsorshipService`. -/
inductive SponsorshipStatus
  | ACTIVE | PAUSED | EXPIRED | CANCELLED
deriving DecidableEq, Repr

/-- The NestJS exceptions thrown by the three services. -/
inductive Err
  | notFound (msg : String)
  | badRequest (msg : String)
  | forbidden (msg : String)
deriving DecidableEq, Repr

/-- The fields of the `User` row that the embedded services read. -/
structure User where
  id : String
  userType : String
deriving DecidableEq, Repr

/-- The fields of the `Equipment` row that the embedded services read or write. -/
structure Equipment where
  id : String
  ownerId : String
  name : String
  isAvailable : Bool
  price : Option Int := none
  pricePeriod : Option PricePeriod := none
  deletedAt : Option Time := none
deriving DecidableEq, Repr

/-- A row of the `wallets` table. -/
structure Wallet where
  id : String
  userId : String
  balance : Int
  isActive : Bool := true
deriving DecidableEq, Repr

/-- A row of the `wallet_transactions` table (`metadata` omitted, opaque). -/
structure WalletTransaction where
  walletId : String
  type : WalletTransactionType
  amount : Int
  description : String
  reference : Option String := none
  proxyPayReference : Option String := none
  proxyPayId : Option String := none
  status : WalletTransactionStatus
deriving DecidableEq, Repr

/-- A row of the `Rental` table (the fields `RentalService` reads or writes). -/
structure Rental where
  id : String
  equipmentId : String
  renterId : String
  ownerId : String
  startDate : Time
  endDate : Time
  startTime : Option String := none
  endTime : Option String := none
  totalAmount : Int
  dailyRate : Int
  maxRentalDays : Option Int := none
  paymentMethod : Option RentalPayMethod := none
  paymentReference : Option String := none
  returnReminderDate : Time
  status : RentalStatus
  paymentStatus : PaymentStatus
  paymentReceiptStatus : Option ReceiptStatus := none
  pricePeriod : Option PricePeriod := none
  hasPriority : Bool := false
  priorityAmount : Option Int := none
  priorityPaidAt : Option Time := none
  approvedAt : Option Time := none
  returnNotificationSent : Bool := false
  deletedAt : Option Time := none
deriving DecidableEq, Repr

/-- A row of the `AdSponsorship` table. -/
structure AdSponsorship where
  id : String
  sponsorId : String
  targetUserId : Option String := none
  equipmentId : Option String := none
  amount : Int
  duration : Int
  startDate : Time
  endDate : Time
  status : SponsorshipStatus
deriving DecidableEq, Repr

/-- The relational store the services delegate to. -/
structure Db where
  users : List User := []
  equipments : List Equipment := []
  rentals : List Rental := []
  wallets : List Wallet := []
  walletTransactions : List WalletTransaction := []
  sponsorships : List AdSponsorship := []
  nextId : Nat := 0
deriving DecidableEq, Repr

/-- Fresh row id (stands in for the uuids Prisma generates). -/
def Db.genId (db : Db) : String × Db :=
  (toString db.nextId, { db with nextId := db.nextId + 1 })

/-- Dto `CreateWalletDto` (`initialBalance` optional, destructured with default 0). -/
structure CreateWalletDto where
  userId : String
  initialBalance : Option Int := none
deriving DecidableEq, Repr

/-- Dto `CreateWalletTransactionDto`: note that it carries an optional `status`
field, which `WalletService.createTransaction` never reads. -/
structure CreateWalletTransactionDto where
  walletId : String
  type : WalletTransactionType
  amount : Int
  description : String
  reference : Option String := none
  proxyPayReference : Option String := none
  proxyPayId : Option String := none
  status : Option WalletTransactionStatus := none
deriving DecidableEq, Repr

/-- Embeds `WalletService.createTransaction` (wallet.service.ts).
Looks the wallet up, rejects an overdraft debit, then inserts the transaction
row — with status hard-coded to `COMPLETED`, ignoring `dto.status` — and
increments the wallet balance by `dto.amount`. -/
def createTransaction (dto : CreateWalletTransactionDto) (db : Db) :
    Except Err WalletTransaction × Db :=
  match db.wallets.find? (fun w => w.id == dto.walletId) with
  | none => (.error (.notFound "Wallet not found"), db)
  | some wallet =>
    if dto.amount < 0 ∧ wallet.balance + dto.amount < 0 then
      (.error (.badRequest "Insufficient balance"), db)
    else
      let tx : WalletTransaction :=
        { walletId := dto.walletId, type := dto.type, amount := dto.amount,
          description := dto.description, reference := dto.reference,
          proxyPayReference := dto.proxyPayReference, proxyPayId := dto.proxyPayId,
          status := WalletTransactionStatus.COMPLETED }
      let db : Db := { db with walletTransactions := db.walletTransactions ++ [tx] }
      let db : Db := { db with wallets := db.wallets.map (fun w =>
        if w.id == dto.walletId then { w with balance := w.balance + dto.amount } else w) }
      (.ok tx, db)

/-- Embeds `WalletService.createWallet` (wallet.service.ts).
Checks the user exists and has no wallet yet, creates the wallet with
`balance := initialBalance`, and — when `initialBalance > 0` — additionally
records an initial DEPOSIT through `createTransaction`, which increments the
balance a second time. -/
def createWallet (dto : CreateWalletDto) (db : Db) : Except Err Wallet × Db :=
  let initialBalance := dto.initialBalance.getD 0
  if (db.users.find? (fun u => u.id == dto.userId)).isNone then
    (.error (.notFound "User not found"), db)
  else if (db.wallets.find? (fun w => w.userId == dto.userId)).isSome then
    (.error (.badRequest "User already has a wallet"), db)
  else
    let (wid, db) := db.genId
    let wallet : Wallet :=
      { id := wid, userId := dto.userId, balance := initialBalance, isActive := true }
    let db : Db := { db with wallets := db.wallets ++ [wallet] }
    if initialBalance > 0 then
      match createTransaction
          { walletId := wallet.id, type := WalletTransactionType.DEPOSIT,
            amount := initialBalance, description := "Saldo inicial da carteira",
            reference := some ("INITIAL_" ++ wallet.id) } db with
      | (.error e, db) => (.error e, db)
      | (.ok _, db) => (.ok wallet, db)
    else
      (.ok wallet, db)

/-- Embeds `WalletService.getWalletByUserId`: returns the existing wallet for
the user, or creates one (with the default zero balance) when absent. -/
def getWalletByUserId (userId : String) (db : Db) : Except Err Wallet × Db :=
  match db.wallets.find? (fun w => w.userId == userId) with
  | some wallet => (.ok wallet, db)
  | none => createWallet { userId := userId } db

/-- The simplified response `ProxyPayService.createDeposit` returns (the
gateway call itself is an external collaborator and is passed in as data). -/
structure ProxyPayResponse where
  success : Bool
  transactionId : String
  reference : String
  paymentUrl : Option String := none
deriving DecidableEq, Repr

/-- The transaction dto that `WalletService.depositViaProxyPay` hands to
`createTransaction`: in particular `status := some PENDING`. -/
def proxyPayDepositTxDto (walletId : String) (amount : Int) (paymentMethod : String)
    (resp : ProxyPayResponse) : CreateWalletTransactionDto :=
  { walletId := walletId, type := WalletTransactionType.DEPOSIT, amount := amount,
    description := "Depósito via ProxyPay - " ++ paymentMethod,
    reference := some resp.reference,
    proxyPayReference := some resp.reference,
    proxyPayId := some resp.transactionId,
    status := some WalletTransactionStatus.PENDING }

/-- Embeds `WalletService.depositViaProxyPay` (the part after the external
gateway call, whose response `resp` is a parameter): validates the amount,
resolves the wallet and user, and records the deposit transaction. -/
def depositViaProxyPay (userId : String) (amount : Int) (paymentMethod : String)
    (resp : ProxyPayResponse) (db : Db) : Except Err WalletTransaction × Db :=
  if amount ≤ 0 then (.error (.badRequest "Amount must be positive"), db)
  else
    match getWalletByUserId userId db with
    | (.error e, db) => (.error e, db)
    | (.ok wallet, db) =>
      if (db.users.find? (fun u => u.id == userId)).isNone then
        (.error (.notFound "User not found"), db)
      else if ¬ resp.success then
        (.error (.badRequest "ProxyPay deposit failed"), db)
      else
        match createTransaction (proxyPayDepositTxDto wallet.id amount paymentMethod resp) db with
        | (.error e, db) => (.error e, db)
        | (.ok tx, db) => (.ok tx, db)

/-- Sum of the amounts of all COMPLETED transactions recorded for a wallet. -/
def completedTxSum (db : Db) (walletId : String) : Int :=
  ((db.walletTransactions.filter (fun t =>
      t.walletId == walletId && t.status == WalletTransactionStatus.COMPLETED)).map
    (fun t => t.amount)).sum

/-- The balance currently stored for a wallet id. -/
def storedBalance (db : Db) (walletId : String) : Option Int :=
  (db.wallets.find? (fun w => w.id == walletId)).map (fun w => w.balance)

/-- Dto `CreateRentalDto` (dates already parsed to epoch milliseconds).
`totalAmount` is optional here because the service treats a missing or zero
value the same way (`!createRentalDto.totalAmount`). -/
structure CreateRentalDto where
  startDate : Time
  endDate : Time
  startTime : Option String := none
  endTime : Option String := none
  totalAmount : Option Int := none
  dailyRate : Option Int := none
  pricePeriod : Option PricePeriod := none
  maxRentalDays : Option Int := none
  paymentMethod : RentalPayMethod
  paymentReference : Option String := none
  equipmentId : String
  hasPriority : Option Bool := none
  priorityAmount : Option Int := none
deriving DecidableEq, Repr

/-- The `switch (createRentalDto.pricePeriod || equipment.pricePeriod)`
scrutinee of `RentalService.create`: the dto value when present, otherwise the
equipment value. -/
def effectivePeriod (dto : CreateRentalDto) (equipment : Equipment) : Option PricePeriod :=
  match dto.pricePeriod with
  | some p => some p
  | none => equipment.pricePeriod

/-- Embeds the `totalAmount` computation of `RentalService.create`
(lines computing `dailyRate`, then the `switch` over the price period):
when `createRentalDto.totalAmount` is falsy the amount is recomputed from
`dailyRate` and the number of days, otherwise the supplied value is kept. -/
def rentalTotalAmount (dto : CreateRentalDto) (equipment : Equipment) (days : Int) : Int :=
  let dailyRate := jsOrInt dto.dailyRate (jsOrInt equipment.price 0)
  if intFalsy dto.totalAmount then
    match effectivePeriod dto equipment with
    | some PricePeriod.HOURLY => dailyRate * days * 8
    | some PricePeriod.WEEKLY => dailyRate * jsCeilDiv days 7
    | some PricePeriod.MONTHLY => dailyRate * jsCeilDiv days 30
    | _ => dailyRate * days
  else
    dto.totalAmount.getD 0

/-- Clears the priority fields of a rental (the rollback both the
insufficient-balance branch and the catch block of `RentalService.create`
perform). -/
def clearPriority (rid : String) (db : Db) : Db :=
  { db with rentals := db.rentals.map (fun r =>
      if r.id == rid then
        { r with hasPriority := false, priorityAmount := none, priorityPaidAt := none }
      else r) }

/-- Embeds `RentalService.create`: validates equipment, renter and dates,
computes `days`, `totalAmount` and `returnReminderDate`, inserts the PENDING
rental (availability unchanged), then best-effort processes the priority fee,
rolling the priority fields back on insufficient balance or error. -/
def rentalCreate (now : Time) (renterId : String) (dto : CreateRentalDto) (db : Db) :
    Except Err Rental × Db :=
  match db.equipments.find? (fun e => e.id == dto.equipmentId && e.deletedAt == none) with
  | none => (.error (.notFound "Equipment not found"), db)
  | some equipment =>
    if ¬ equipment.isAvailable then
      (.error (.badRequest "Equipment is not available"), db)
    else if equipment.ownerId = renterId then
      (.error (.badRequest "You cannot rent your own equipment"), db)
    else
      match db.users.find? (fun u => u.id == renterId) with
      | none => (.error (.notFound "Renter not found"), db)
      | some renter =>
        if renter.userType = "LANDLORD" then
          (.error (.badRequest "Landlords cannot rent equipment. Only tenants can rent equipment."), db)
        else
          let today := msPerDay * (now.fdiv msPerDay)
          if dto.startDate < today then
            (.error (.badRequest "Start date cannot be in the past"), db)
          else if dto.endDate ≤ dto.startDate then
            (.error (.badRequest "End date must be after start date"), db)
          else
            let days := jsCeilDiv (dto.endDate - dto.startDate) msPerDay
            if ((match dto.maxRentalDays with
                | some m => !(m == 0) && decide (m < days)
                | none => false) : Bool) then
              (.error (.badRequest "Rental period cannot exceed maxRentalDays days"), db)
            else
              let totalAmount := rentalTotalAmount dto equipment days
              let dailyRate := jsOrInt dto.dailyRate (jsOrInt equipment.price 0)
              let returnReminderDate := dto.endDate - msPerDay
              let (rid, db) := db.genId
              let rental : Rental :=
                { id := rid, equipmentId := dto.equipmentId, renterId := renterId,
                  ownerId := equipment.ownerId,
                  startDate := dto.startDate, endDate := dto.endDate,
                  startTime := dto.startTime, endTime := dto.endTime,
                  totalAmount := totalAmount, dailyRate := dailyRate,
                  maxRentalDays := dto.maxRentalDays,
                  paymentMethod := some dto.paymentMethod,
                  paymentReference := dto.paymentReference,
                  returnReminderDate := returnReminderDate,
                  status := RentalStatus.PENDING,
                  paymentStatus := PaymentStatus.PENDING,
                  paymentReceiptStatus :=
                    if dto.paymentMethod = RentalPayMethod.RECEIPT
                    then some ReceiptStatus.PENDING else none,
                  pricePeriod := effectivePeriod dto equipment,
                  hasPriority := dto.hasPriority.getD false,
                  priorityAmount := dto.priorityAmount,
                  priorityPaidAt :=
                    if dto.hasPriority.getD false then some now else none }
              let db : Db := { db with rentals := db.rentals ++ [rental] }
              let db : Db :=
                if dto.hasPriority.getD false && !(intFalsy dto.priorityAmount) then
                  let pa := dto.priorityAmount.getD 0
                  match getWalletByUserId renterId db with
                  | (.error _, db) => clearPriority rid db
                  | (.ok wallet, db) =>
                    if pa ≤ wallet.balance then
                      match createTransaction
                          { walletId := wallet.id,
                            type := WalletTransactionType.PRIORITY_FEE,
                            amount := -pa,
                            description := "Taxa de prioridade - Aluguel " ++ equipment.name,
                            status := some WalletTransactionStatus.COMPLETED } db with
                      | (.error _, db) => clearPriority rid db
                      | (.ok _, db) => db
                    else
                      clearPriority rid db
                else db
              (.ok rental, db)

/-- Embeds `RentalService.findOne` (read-only): resolves a non-deleted rental
and checks the caller is its renter or owner. -/
def rentalFindOne (id : String) (userId : Option String) (db : Db) : Except Err Rental :=
  match db.rentals.find? (fun r => r.id == id && r.deletedAt == none) with
  | none => .error (.notFound "Rental not found")
  | some rental =>
    match userId with
    | some uid =>
      if rental.renterId ≠ uid ∧ rental.ownerId ≠ uid then
        .error (.forbidden "You do not have permission to view this rental")
      else .ok rental
    | none => .ok rental

/-- The `findFirst` query `updateStatus` and `cancelExpiredApprovedRentals`
use to decide whether an equipment may be released: is some rental for this
equipment APPROVED, PAID or ACTIVE with `endDate >= now` (optionally
excluding one rental id)? -/
def heldRentalQuery (now : Time) (equipmentId : String) (excludeId : Option String)
    (rentals : List Rental) : Option Rental :=
  rentals.find? (fun r =>
    r.equipmentId == equipmentId &&
    (r.status == RentalStatus.APPROVED || r.status == RentalStatus.PAID ||
      r.status == RentalStatus.ACTIVE) &&
    decide (now ≤ r.endDate) &&
    (match excludeId with
     | some i => r.id != i
     | none => true))

/-- Embeds `RentalService.updateStatus`: permission checks (owner-only for
APPROVED, renter-or-owner for CANCELLED), then sets the requested status with
no check of the current status; on APPROVED it marks the equipment
unavailable, auto-REJECTs the other PENDING rentals of the equipment and
stamps `approvedAt`; on CANCELLED/REJECTED it releases the equipment when the
`heldRentalQuery` finds no remaining holder. -/
def updateStatus (now : Time) (id : String) (status : RentalStatus) (userId : String)
    (db : Db) : Except Err Rental × Db :=
  match rentalFindOne id (some userId) db with
  | .error e => (.error e, db)
  | .ok rental =>
    if status = RentalStatus.APPROVED ∧ rental.ownerId ≠ userId then
      (.error (.forbidden "Only the owner can approve rentals"), db)
    else if status = RentalStatus.CANCELLED ∧ rental.renterId ≠ userId ∧ rental.ownerId ≠ userId then
      (.error (.forbidden "Only the renter or owner can cancel rentals"), db)
    else
      let updatedRental := { rental with status := status }
      let db : Db := { db with rentals := db.rentals.map (fun r =>
        if r.id == rental.id then { r with status := status } else r) }
      let db : Db :=
        if status = RentalStatus.APPROVED then
          let db : Db := { db with equipments := db.equipments.map (fun e =>
            if e.id == rental.equipmentId then { e with isAvailable := false } else e) }
          let db : Db := { db with rentals := db.rentals.map (fun r =>
            if r.equipmentId == rental.equipmentId && r.status == RentalStatus.PENDING &&
                r.id != rental.id
            then { r with status := RentalStatus.REJECTED } else r) }
          ({ db with rentals := db.rentals.map (fun r =>
            if r.id == rental.id then { r with approvedAt := some now } else r) } : Db)
        else db
      let db : Db :=
        if status = RentalStatus.CANCELLED ∨ status = RentalStatus.REJECTED then
          match heldRentalQuery now rental.equipmentId none db.rentals with
          | some _ => db
          | none => ({ db with equipments := db.equipments.map (fun e =>
              if e.id == rental.equipmentId then { e with isAvailable := true } else e) } : Db)
        else db
      (.ok updatedRental, db)

/-- Embeds `RentalService.cancelRental`: renter-or-owner may cancel any
non-COMPLETED rental; sets CANCELLED plus the soft-delete marker and then
marks the equipment available unconditionally. -/
def cancelRental (now : Time) (id : String) (userId : String) (db : Db) :
    Except Err Rental × Db :=
  match rentalFindOne id (some userId) db with
  | .error e => (.error e, db)
  | .ok rental =>
    if rental.renterId ≠ userId ∧ rental.ownerId ≠ userId then
      (.error (.forbidden "You do not have permission to cancel this rental"), db)
    else if rental.status = RentalStatus.COMPLETED then
      (.error (.badRequest "Cannot cancel a completed rental"), db)
    else
      let updatedRental := { rental with status := RentalStatus.CANCELLED, deletedAt := some now }
      let db : Db := { db with rentals := db.rentals.map (fun r =>
        if r.id == id then { r with status := RentalStatus.CANCELLED, deletedAt := some now } else r) }
      let db : Db := { db with equipments := db.equipments.map (fun e =>
        if e.id == rental.equipmentId then { e with isAvailable := true } else e) }
      (.ok updatedRental, db)

/-- The transaction dto `RentalService.payWithWallet` hands to
`createTransaction` (metadata omitted as everywhere). -/
def rentalPaymentTxDto (walletId : String) (totalAmount : Int) (equipmentName : String) :
    CreateWalletTransactionDto :=
  { walletId := walletId, type := WalletTransactionType.PAYMENT,
    amount := -totalAmount,
    description := "Pagamento de aluguel - " ++ equipmentName,
    status := some WalletTransactionStatus.COMPLETED }

/-- Embeds `RentalService.payWithWallet`: the renter pays a not-yet-paid
rental from the wallet; requires `balance ≥ totalAmount`, debits the wallet
with a PAYMENT transaction and then sets `paymentStatus = PAID`,
`paymentMethod = WALLET` and `status = PAID`. Note there is no requirement on
the current `status` of the rental. -/
def payWithWallet (rentalId : String) (userId : String) (db : Db) :
    Except Err Rental × Db :=
  match db.rentals.find? (fun r => r.id == rentalId) with
  | none => (.error (.notFound "Rental not found"), db)
  | some rental =>
    if rental.renterId ≠ userId then
      (.error (.forbidden "You can only pay for your own rentals"), db)
    else if rental.paymentStatus = PaymentStatus.PAID then
      (.error (.badRequest "Rental already paid"), db)
    else
      match getWalletByUserId userId db with
      | (.error e, db) => (.error e, db)
      | (.ok wallet, db) =>
        if wallet.balance < rental.totalAmount then
          (.error (.badRequest "Insufficient wallet balance"), db)
        else
          let equipmentName :=
            ((db.equipments.find? (fun e => e.id == rental.equipmentId)).map
              (fun e => e.name)).getD ""
          match createTransaction
              (rentalPaymentTxDto wallet.id rental.totalAmount equipmentName) db with
          | (.error e, db) => (.error e, db)
          | (.ok _, db) =>
            let updatedRental := { rental with
              paymentStatus := PaymentStatus.PAID,
              paymentMethod := some RentalPayMethod.WALLET,
              status := RentalStatus.PAID }
            let db : Db := { db with rentals := db.rentals.map (fun r =>
              if r.id == rentalId then { r with
                paymentStatus := PaymentStatus.PAID,
                paymentMethod := some RentalPayMethod.WALLET,
                status := RentalStatus.PAID }
              else r) }
            (.ok updatedRental, db)

/-- The filter `cancelExpiredApprovedRentals` applies: APPROVED, payment still
PENDING, approved at or before the expiration date. -/
def expiredApprovedPred (expirationDate : Time) (r : Rental) : Bool :=
  r.status == RentalStatus.APPROVED &&
  r.paymentStatus == PaymentStatus.PENDING &&
  (match r.approvedAt with
   | some t => decide (t ≤ expirationDate)
   | none => false)

/-- One iteration of the sweep loop of `cancelExpiredApprovedRentals`:
cancel the rental, then release the equipment if no other APPROVED/PAID/ACTIVE
rental with `endDate >= now` remains. -/
def sweepCancelOne (now : Time) (db : Db) (rental : Rental) : Db :=
  let db : Db := { db with rentals := db.rentals.map (fun r =>
    if r.id == rental.id then { r with status := RentalStatus.CANCELLED } else r) }
  match heldRentalQuery now rental.equipmentId (some rental.id) db.rentals with
  | some _ => db
  | none => ({ db with equipments := db.equipments.map (fun e =>
      if e.id == rental.equipmentId then { e with isAvailable := true } else e) } : Db)

/-- Embeds `RentalService.cancelExpiredApprovedRentals`: computes the
expiration date (`now` minus the timeout in hours), collects the expired
APPROVED rentals, cancels each in turn and returns the collected list. -/
def cancelExpiredApprovedRentals (now : Time) (timeoutHours : Int) (db : Db) :
    Except Err (List Rental) × Db :=
  let expirationDate := now - timeoutHours * msPerHour
  let expired := db.rentals.filter (expiredApprovedPred expirationDate)
  (.ok expired, expired.foldl (sweepCancelOne now) db)

/-- Dto `CreateSponsorshipDto` from sponsorship.service.ts. -/
structure CreateSponsorshipDto where
  targetUserId : Option String := none
  equipmentId : Option String := none
  amount : Int
  duration : Int
deriving DecidableEq, Repr

/-- Embeds `SponsorshipService.createSponsorship`: validates amount and
duration, rejects when the sponsor already has an ACTIVE sponsorship whose
window contains `now`, checks the wallet balance and the optional target
equipment/user, then inserts the ACTIVE sponsorship and debits the wallet. -/
def createSponsorship (now : Time) (sponsorId : String) (dto : CreateSponsorshipDto)
    (db : Db) : Except Err AdSponsorship × Db :=
  if dto.amount ≤ 0 then (.error (.badRequest "Amount must be positive"), db)
  else if dto.duration ≤ 0 then (.error (.badRequest "Duration must be positive"), db)
  else
    match db.sponsorships.find? (fun s =>
        s.sponsorId == sponsorId && s.status == SponsorshipStatus.ACTIVE &&
        decide (s.startDate ≤ now) && decide (now ≤ s.endDate)) with
    | some _ =>
      (.error (.badRequest "Você já possui um patrocínio ativo. Aguarde a expiração ou cancele o atual para criar um novo."), db)
    | none =>
      match getWalletByUserId sponsorId db with
      | (.error e, db) => (.error e, db)
      | (.ok wallet, db) =>
        if wallet.balance < dto.amount then
          (.error (.badRequest "Insufficient wallet balance"), db)
        else if ((match dto.equipmentId with
                 | some eid =>
                   (db.equipments.find? (fun e =>
                     e.id == eid && e.ownerId == sponsorId && e.deletedAt == none)).isNone
                 | none => false) : Bool) then
          (.error (.notFound "Equipment not found or not owned by user"), db)
        else if ((match dto.targetUserId with
                 | some tid => (db.users.find? (fun u => u.id == tid)).isNone
                 | none => false) : Bool) then
          (.error (.notFound "Target user not found"), db)
        else
          let (sid, db) := db.genId
          let sponsorship : AdSponsorship :=
            { id := sid, sponsorId := sponsorId,
              targetUserId := dto.targetUserId, equipmentId := dto.equipmentId,
              amount := dto.amount, duration := dto.duration,
              startDate := now, endDate := now + dto.duration * msPerDay,
              status := SponsorshipStatus.ACTIVE }
          let db : Db := { db with sponsorships := db.sponsorships ++ [sponsorship] }
          match createTransaction
              { walletId := wallet.id,
                type := WalletTransactionType.PROMOTION_FEE,
                amount := -dto.amount,
                description := "Patrocínio de anúncio - " ++ toString dto.duration ++ " dias",
                status := some WalletTransactionStatus.COMPLETED } db with
          | (.error e, db) => (.error e, db)
          | (.ok _, db) => (.ok sponsorship, db)

/-! ## Concrete stores used by the closed theorems below -/

/-- A store with one user and no wallet yet. -/
def c1Db : Db := { users := [{ id := "u1", userType := "TENANT" }] }

/-- A wallet holding 10. -/
def c2Wallet : Wallet := { id := "w1", userId := "u1", balance := 10 }

/-- A store with one user owning `c2Wallet`. -/
def c2Db : Db :=
  { users := [{ id := "u1", userType := "TENANT" }], wallets := [c2Wallet] }

/-- A debit of 20 against `c2Wallet` (which only holds 10). -/
def c2Dto : CreateWalletTransactionDto :=
  { walletId := "w1", type := WalletTransactionType.WITHDRAWAL, amount := -20,
    description := "Saque via ProxyPay - bank_transfer" }

/-- A wallet holding 100. -/
def c10Wallet : Wallet := { id := "w1", userId := "u1", balance := 100 }

/-- A store with one user owning `c10Wallet`. -/
def c10Db : Db :=
  { users := [{ id := "u1", userType := "TENANT" }], wallets := [c10Wallet] }

/-- A successful gateway response for a deposit. -/
def c10Resp : ProxyPayResponse :=
  { success := true, transactionId := "PPID1", reference := "REF1" }

/-! ## Theorems -/

/-- The transaction row `createTransaction` inserts for an accepted dto. -/
def storedTx (dto : CreateWalletTransactionDto) : WalletTransaction :=
  { walletId := dto.walletId, type := dto.type, amount := dto.amount,
    description := dto.description, reference := dto.reference,
    proxyPayReference := dto.proxyPayReference, proxyPayId := dto.proxyPayId,
    status := WalletTransactionStatus.COMPLETED }

/-- The equipment name `payWithWallet` puts into the transaction description. -/
def equipName (db : Db) (equipmentId : String) : String :=
  ((db.equipments.find? (fun e => e.id == equipmentId)).map (fun e => e.name)).getD ""

/-- Evaluation of the success case of `createTransaction`. -/
theorem createTransaction_ok_eq
    (db : Db) (dto : CreateWalletTransactionDto) (w : Wallet)
    (hw : db.wallets.find? (fun x => x.id == dto.walletId) = some w)
    (hok : ¬(dto.amount < 0 ∧ w.balance + dto.amount < 0)) :
    createTransaction dto db =
      (.ok (storedTx dto),
       { db with
         walletTransactions := db.walletTransactions ++ [storedTx dto],
         wallets := db.wallets.map (fun x =>
           if x.id == dto.walletId then { x with balance := x.balance + dto.amount } else x) }) := by
  unfold createTransaction
  rw [hw]
  exact if_neg hok

/-- Evaluation of the success case of `payWithWallet`: given the rental, the
renter as caller, a not-yet-paid payment status, the renter wallet and a
sufficient balance, the call debits the wallet and marks the rental paid.
There is deliberately no hypothesis about `r.status`. -/
theorem payWithWallet_ok_eq
    (db : Db) (rentalId userId : String) (r : Rental) (w : Wallet)
    (hr : db.rentals.find? (fun x => x.id == rentalId) = some r)
    (hrenter : r.renterId = userId)
    (hps : r.paymentStatus ≠ PaymentStatus.PAID)
    (hw : db.wallets.find? (fun x => x.userId == userId) = some w)
    (hwid : db.wallets.find? (fun x => x.id == w.id) = some w)
    (hbal : r.totalAmount ≤ w.balance) :
    payWithWallet rentalId userId db =
      (.ok { r with
             paymentStatus := PaymentStatus.PAID,
             paymentMethod := some RentalPayMethod.WALLET,
             status := RentalStatus.PAID },
       { db with
         walletTransactions := db.walletTransactions ++
           [storedTx (rentalPaymentTxDto w.id r.totalAmount (equipName db r.equipmentId))],
         wallets := db.wallets.map (fun x =>
           if x.id == w.id then { x with balance := x.balance + -r.totalAmount } else x),
         rentals := db.rentals.map (fun x =>
           if x.id == rentalId then { x with
             paymentStatus := PaymentStatus.PAID,
             paymentMethod := some RentalPayMethod.WALLET,
             status := RentalStatus.PAID }
           else x) }) := by
  have hren : ¬ r.renterId ≠ userId := fun h => h hrenter
  have hlt : ¬ w.balance < r.totalAmount := not_lt.mpr hbal
  have hok : ¬((rentalPaymentTxDto w.id r.totalAmount (equipName db r.equipmentId)).amount < 0 ∧
      w.balance + (rentalPaymentTxDto w.id r.totalAmount (equipName db r.equipmentId)).amount < 0) := by
    simp only [rentalPaymentTxDto]
    omega
  have htx := createTransaction_ok_eq db
    (rentalPaymentTxDto w.id r.totalAmount (equipName db r.equipmentId)) w hwid hok
  simp only [equipName, rentalPaymentTxDto, storedTx] at htx
  simp only [payWithWallet, getWalletByUserId, hr, hw, if_neg hren, if_neg hps, if_neg hlt,
    equipName, rentalPaymentTxDto, storedTx, htx]

/-- Evaluation of the failure case of `payWithWallet`: insufficient wallet
balance yields the insufficient-balance error and leaves the store — and so
the rental — exactly unchanged. Again no hypothesis about `r.status`. -/
theorem payWithWallet_insufficient_eq
    (db : Db) (rentalId userId : String) (r : Rental) (w : Wallet)
    (hr : db.rentals.find? (fun x => x.id == rentalId) = some r)
    (hrenter : r.renterId = userId)
    (hps : r.paymentStatus ≠ PaymentStatus.PAID)
    (hw : db.wallets.find? (fun x => x.userId == userId) = some w)
    (hbal : w.balance < r.totalAmount) :
    payWithWallet rentalId userId db = (.error (.badRequest "Insufficient wallet balance"), db) := by
  have hren : ¬ r.renterId ≠ userId := fun h => h hrenter
  simp only [payWithWallet, getWalletByUserId, hr, hw, if_neg hren, if_neg hps, if_pos hbal]

/-- Claim C1 (refuted — code bug): creating a wallet with initial balance 100
leaves the stored balance at 200, because `createWallet` sets
`balance := initialBalance` at creation and then records an initial DEPOSIT
transaction through `createTransaction`, which increments the balance by the
same amount again; the COMPLETED transactions recorded for the wallet sum to
only 100. So after this single successful operation the claimed invariant
`balance = sum of COMPLETED transaction amounts` is already broken. -/
theorem c1_createWallet_double_counts_initial_balance :
    storedBalance (createWallet { userId := "u1", initialBalance := some 100 } c1Db).2 "0" =
      some 200 ∧
    completedTxSum (createWallet { userId := "u1", initialBalance := some 100 } c1Db).2 "0" =
      100 ∧
    (200 : Int) ≠ 100 := by decide

/-- Claim C2: a debit whose absolute value exceeds the current balance is
rejected by `createTransaction` with the `Insufficient balance` error, and the
store is returned exactly as it was — no transaction row is recorded and no
balance is changed. -/
theorem c2_insufficient_debit_rejected_without_mutation
    (db : Db) (dto : CreateWalletTransactionDto) (w : Wallet)
    (hw : db.wallets.find? (fun x => x.id == dto.walletId) = some w)
    (hdebit : dto.amount < 0) (hover : w.balance + dto.amount < 0) :
    createTransaction dto db = (.error (.badRequest "Insufficient balance"), db) := by
  unfold createTransaction
  rw [hw]
  exact if_pos ⟨hdebit, hover⟩

/-- Witness for C2 at a concrete input: wallet holding 10, debit of 20. -/
theorem c2_insufficient_debit_witness :
    c2Db.wallets.find? (fun x => x.id == c2Dto.walletId) = some c2Wallet ∧
    c2Dto.amount < 0 ∧ c2Wallet.balance + c2Dto.amount < 0 ∧
    createTransaction c2Dto c2Db = (.error (.badRequest "Insufficient balance"), c2Db) :=
  ⟨by decide, by decide, by decide,
   c2_insufficient_debit_rejected_without_mutation c2Db c2Dto c2Wallet
     (by decide) (by decide) (by decide)⟩

/-- Claim C10: whatever status the caller supplies in the dto, an accepted
`createTransaction` stores the transaction with status COMPLETED and
immediately increments the wallet balance by the amount — `dto.status` is
universally quantified here and does not appear in the conclusion. -/
theorem c10_createTransaction_stores_completed_and_increments
    (db : Db) (dto : CreateWalletTransactionDto) (w : Wallet)
    (hw : db.wallets.find? (fun x => x.id == dto.walletId) = some w)
    (hok : ¬(dto.amount < 0 ∧ w.balance + dto.amount < 0)) :
    createTransaction dto db =
      (.ok { walletId := dto.walletId, type := dto.type, amount := dto.amount,
             description := dto.description, reference := dto.reference,
             proxyPayReference := dto.proxyPayReference, proxyPayId := dto.proxyPayId,
             status := WalletTransactionStatus.COMPLETED },
       { db with
         walletTransactions := db.walletTransactions ++
           [{ walletId := dto.walletId, type := dto.type, amount := dto.amount,
              description := dto.description, reference := dto.reference,
              proxyPayReference := dto.proxyPayReference, proxyPayId := dto.proxyPayId,
              status := WalletTransactionStatus.COMPLETED }],
         wallets := db.wallets.map (fun x =>
           if x.id == dto.walletId then { x with balance := x.balance + dto.amount } else x) }) := by
  unfold createTransaction
  rw [hw]
  exact if_neg hok

/-- Witness for C10 at the deposit path: `depositViaProxyPay` builds its dto
through `proxyPayDepositTxDto` with `status := some PENDING`, yet the stored
transaction is COMPLETED and the balance is already incremented. -/
theorem c10_gateway_deposit_witness :
    (proxyPayDepositTxDto "w1" 500 "bank_transfer" c10Resp).status =
      some WalletTransactionStatus.PENDING ∧
    (createTransaction (proxyPayDepositTxDto "w1" 500 "bank_transfer" c10Resp) c10Db).1 =
      .ok { walletId := "w1", type := WalletTransactionType.DEPOSIT, amount := 500,
            description := "Depósito via ProxyPay - bank_transfer",
            reference := some "REF1", proxyPayReference := some "REF1",
            proxyPayId := some "PPID1", status := WalletTransactionStatus.COMPLETED } ∧
    storedBalance
      (createTransaction (proxyPayDepositTxDto "w1" 500 "bank_transfer" c10Resp) c10Db).2 "w1" =
      some 600 := by
  have h := c10_createTransaction_stores_completed_and_increments c10Db
    (proxyPayDepositTxDto "w1" 500 "bank_transfer" c10Resp) c10Wallet (by decide) (by decide)
  exact ⟨by decide, by rw [h]; rfl, by rw [h]; decide⟩

/-- A PENDING, unpaid rental used for the C3 scenario. -/
def c3Rental : Rental :=
  { id := "r1", equipmentId := "e1", renterId := "u1", ownerId := "o1",
    startDate := 0, endDate := 10 * msPerDay, totalAmount := 40, dailyRate := 10,
    returnReminderDate := 9 * msPerDay, status := RentalStatus.PENDING,
    paymentStatus := PaymentStatus.PENDING }

/-- The renter wallet for the C3 scenario. -/
def c3Wallet : Wallet := { id := "w1", userId := "u1", balance := 100 }

/-- Store for the C3 scenario: one PENDING rental, renter wallet holding 100. -/
def c3Db : Db :=
  { users := [{ id := "u1", userType := "TENANT" }],
    equipments := [{ id := "e1", ownerId := "o1", name := "Drill", isAvailable := true }],
    rentals := [c3Rental], wallets := [c3Wallet] }

/-- Claim C3 (counterexample): `c3Db` holds a single PENDING rental — it was
never APPROVED — and one `payWithWallet` call moves its status directly to
PAID. So under the allowed operations a rental does transition into PAID from
a status other than APPROVED, refuting the claimed state machine. -/
theorem c3_counterexample_paid_from_pending :
    c3Rental.status = RentalStatus.PENDING ∧
    (payWithWallet "r1" "u1" c3Db).2.rentals.map (fun x => x.status) = [RentalStatus.PAID] := by
  decide

/-- Claim C3 (amended): neither `updateStatus` nor `payWithWallet` checks the
current status of a rental. In particular `payWithWallet` succeeds and sets
`status := PAID` whenever the caller is the renter, the rental is not yet paid
and the wallet balance covers `totalAmount` — with no hypothesis whatsoever on
the current `status`, so PAID is reachable from any status, not only from
APPROVED. -/
theorem c3_paid_reachable_from_any_status
    (db : Db) (rentalId userId : String) (r : Rental) (w : Wallet)
    (hr : db.rentals.find? (fun x => x.id == rentalId) = some r)
    (hrenter : r.renterId = userId)
    (hps : r.paymentStatus ≠ PaymentStatus.PAID)
    (hw : db.wallets.find? (fun x => x.userId == userId) = some w)
    (hwid : db.wallets.find? (fun x => x.id == w.id) = some w)
    (hbal : r.totalAmount ≤ w.balance) :
    (payWithWallet rentalId userId db).1 =
      .ok { r with
        paymentStatus := PaymentStatus.PAID,
        paymentMethod := some RentalPayMethod.WALLET,
        status := RentalStatus.PAID } ∧
    (payWithWallet rentalId userId db).2.rentals =
      db.rentals.map (fun x =>
        if x.id == rentalId then { x with
          paymentStatus := PaymentStatus.PAID,
          paymentMethod := some RentalPayMethod.WALLET,
          status := RentalStatus.PAID }
        else x) := by
  have h := payWithWallet_ok_eq db rentalId userId r w hr hrenter hps hw hwid hbal
  rw [h]
  exact ⟨rfl, rfl⟩

/-- Witness for the amended C3 at the concrete PENDING rental of `c3Db`. -/
theorem c3_amended_witness :
    (payWithWallet "r1" "u1" c3Db).1 =
      .ok { c3Rental with
        paymentStatus := PaymentStatus.PAID,
        paymentMethod := some RentalPayMethod.WALLET,
        status := RentalStatus.PAID } ∧
    (payWithWallet "r1" "u1" c3Db).2.rentals =
      c3Db.rentals.map (fun x =>
        if x.id == "r1" then { x with
          paymentStatus := PaymentStatus.PAID,
          paymentMethod := some RentalPayMethod.WALLET,
          status := RentalStatus.PAID }
        else x) :=
  c3_paid_reachable_from_any_status c3Db "r1" "u1" c3Rental c3Wallet
    (by decide) (by decide) (by decide) (by decide) (by decide) (by decide)

/-- An APPROVED, unpaid rental used for the C5 scenario. -/
def c5Rental : Rental :=
  { id := "r5", equipmentId := "e5", renterId := "u5", ownerId := "o5",
    startDate := 0, endDate := 10 * msPerDay, totalAmount := 40, dailyRate := 10,
    returnReminderDate := 9 * msPerDay, status := RentalStatus.APPROVED,
    paymentStatus := PaymentStatus.PENDING, approvedAt := some 0 }

/-- The renter wallet for the C5 scenario. -/
def c5Wallet : Wallet := { id := "w5", userId := "u5", balance := 100 }

/-- Store for the C5 scenario. -/
def c5Db : Db :=
  { users := [{ id := "u5", userType := "TENANT" }],
    equipments := [{ id := "e5", ownerId := "o5", name := "Crane", isAvailable := false }],
    rentals := [c5Rental], wallets := [c5Wallet] }

/-- Claim C5: for a rental with `paymentStatus ≠ PAID` whose renter calls
`payWithWallet` and owns a wallet: when the balance covers `totalAmount`, the
wallet is debited by exactly `totalAmount` via a PAYMENT transaction and the
rental is set to `paymentStatus = PAID`, `paymentMethod = WALLET`,
`status = PAID`; when the balance is short, the call fails with the
insufficient-balance error and the whole store — every field of the rental
included — is unchanged. -/
theorem c5_payWithWallet_debits_or_rejects
    (db : Db) (rentalId userId : String) (r : Rental) (w : Wallet)
    (hr : db.rentals.find? (fun x => x.id == rentalId) = some r)
    (hrenter : r.renterId = userId)
    (hps : r.paymentStatus ≠ PaymentStatus.PAID)
    (hw : db.wallets.find? (fun x => x.userId == userId) = some w)
    (hwid : db.wallets.find? (fun x => x.id == w.id) = some w) :
    (r.totalAmount ≤ w.balance →
      payWithWallet rentalId userId db =
        (.ok { r with
           paymentStatus := PaymentStatus.PAID,
           paymentMethod := some RentalPayMethod.WALLET,
           status := RentalStatus.PAID },
         { db with
           walletTransactions := db.walletTransactions ++
             [storedTx (rentalPaymentTxDto w.id r.totalAmount (equipName db r.equipmentId))],
           wallets := db.wallets.map (fun x =>
             if x.id == w.id then { x with balance := x.balance + -r.totalAmount } else x),
           rentals := db.rentals.map (fun x =>
             if x.id == rentalId then { x with
               paymentStatus := PaymentStatus.PAID,
               paymentMethod := some RentalPayMethod.WALLET,
               status := RentalStatus.PAID }
             else x) })) ∧
    (w.balance < r.totalAmount →
      payWithWallet rentalId userId db =
        (.error (.badRequest "Insufficient wallet balance"), db)) :=
  ⟨fun hbal => payWithWallet_ok_eq db rentalId userId r w hr hrenter hps hw hwid hbal,
   fun hbal => payWithWallet_insufficient_eq db rentalId userId r w hr hrenter hps hw hbal⟩

/-- Witness for C5 (success branch) at the concrete APPROVED rental of `c5Db`. -/
theorem c5_payWithWallet_witness :
    payWithWallet "r5" "u5" c5Db =
      (.ok { c5Rental with
         paymentStatus := PaymentStatus.PAID,
         paymentMethod := some RentalPayMethod.WALLET,
         status := RentalStatus.PAID },
       { c5Db with
         walletTransactions := c5Db.walletTransactions ++
           [storedTx (rentalPaymentTxDto c5Wallet.id c5Rental.totalAmount (equipName c5Db c5Rental.equipmentId))],
         wallets := c5Db.wallets.map (fun x =>
           if x.id == c5Wallet.id then { x with balance := x.balance + -c5Rental.totalAmount } else x),
         rentals := c5Db.rentals.map (fun x =>
           if x.id == "r5" then { x with
             paymentStatus := PaymentStatus.PAID,
             paymentMethod := some RentalPayMethod.WALLET,
             status := RentalStatus.PAID }
           else x) }) :=
  (c5_payWithWallet_debits_or_rejects c5Db "r5" "u5" c5Rental c5Wallet
    (by decide) (by decide) (by decide) (by decide) (by decide)).1 (by decide)

/-- Lemma: `rentalFindOne` succeeds on a non-deleted rental when the caller is its
renter or its owner. -/
theorem rentalFindOne_ok
    (db : Db) (id userId : String) (r : Rental)
    (hr : db.rentals.find? (fun x => x.id == id && x.deletedAt == none) = some r)
    (hperm : r.renterId = userId ∨ r.ownerId = userId) :
    rentalFindOne id (some userId) db = .ok r := by
  have hp : ¬(r.renterId ≠ userId ∧ r.ownerId ≠ userId) := fun hc =>
    hperm.elim (fun h => hc.1 h) (fun h => hc.2 h)
  simp only [rentalFindOne, hr]
  rw [if_neg hp]

/-- Claim C8: approving a PENDING rental succeeds only for the equipment
owner (the rental carries the owner id denormalized from the equipment, which
is what the source checks); on success the returned rental is the
status-update result, the equipment is marked unavailable, every other
PENDING rental of the same equipment becomes REJECTED, and `approvedAt` is
stamped on the approved rental. -/
theorem c8_approve_requires_owner_and_effects
    (now : Time) (db : Db) (id userId : String) (r : Rental) (e : Equipment)
    (hr : db.rentals.find? (fun x => x.id == id && x.deletedAt == none) = some r)
    (_he : db.equipments.find? (fun x => x.id == r.equipmentId) = some e)
    (hde : e.ownerId = r.ownerId)
    (_hpend : r.status = RentalStatus.PENDING) :
    (userId ≠ e.ownerId →
      ∃ m, updateStatus now id RentalStatus.APPROVED userId db = (.error (.forbidden m), db)) ∧
    (userId = e.ownerId →
      updateStatus now id RentalStatus.APPROVED userId db =
        (.ok { r with status := RentalStatus.APPROVED },
         { db with
           equipments := db.equipments.map (fun x =>
             if x.id == r.equipmentId then { x with isAvailable := false } else x),
           rentals := db.rentals.map (fun x =>
             if x.id == r.id then { x with status := RentalStatus.APPROVED, approvedAt := some now }
             else if x.equipmentId == r.equipmentId && x.status == RentalStatus.PENDING then
               { x with status := RentalStatus.REJECTED }
             else x) })) := by
  constructor
  · intro hne
    rw [hde] at hne
    by_cases hren : r.renterId = userId
    · have hfind := rentalFindOne_ok db id userId r hr (Or.inl hren)
      refine ⟨"Only the owner can approve rentals", ?_⟩
      simp only [updateStatus, hfind]
      rw [if_pos ⟨trivial, fun h => hne h.symm⟩]
    · refine ⟨"You do not have permission to view this rental", ?_⟩
      have hfind : rentalFindOne id (some userId) db =
          .error (.forbidden "You do not have permission to view this rental") := by
        simp only [rentalFindOne, hr]
        rw [if_pos ⟨hren, fun h => hne h.symm⟩]
      simp only [updateStatus, hfind]
  · intro howner
    have hro : r.ownerId = userId := by rw [← hde]; exact howner.symm
    have hfind := rentalFindOne_ok db id userId r hr (Or.inr hro)
    have hno : ¬(r.ownerId ≠ userId) := fun hc => hc hro
    have hc2 : ¬(RentalStatus.APPROVED = RentalStatus.CANCELLED ∧
        r.renterId ≠ userId ∧ r.ownerId ≠ userId) := fun hc => nomatch hc.1
    have hc3 : ¬(RentalStatus.APPROVED = RentalStatus.CANCELLED ∨
        RentalStatus.APPROVED = RentalStatus.REJECTED) :=
      fun hc => hc.elim (fun h => nomatch h) (fun h => nomatch h)
    simp only [updateStatus, hfind, true_and, false_and, if_true, if_false, or_self,
      if_neg hno, if_neg hc2, if_neg hc3]
    refine Prod.ext rfl ?_
    simp only [Db.mk.injEq, and_true, true_and, List.map_map]
    refine List.map_congr_left (fun x _ => ?_)
    simp only [Function.comp_apply]
    by_cases hx : x.id = r.id
    · simp [hx]
    · by_cases hp1 : x.equipmentId = r.equipmentId
      · by_cases hp2 : x.status = RentalStatus.PENDING
        · simp [hx, hp1, hp2]
        · simp [hx, hp1, hp2]
      · simp [hx, hp1]

/-- Equipment for the C8 scenario. -/
def c8E : Equipment := { id := "e8", ownerId := "o8", name := "Mixer", isAvailable := true }

/-- The PENDING rental being approved in the C8 scenario. -/
def c8A : Rental :=
  { id := "r8a", equipmentId := "e8", renterId := "u8", ownerId := "o8",
    startDate := 0, endDate := 10 * msPerDay, totalAmount := 40, dailyRate := 10,
    returnReminderDate := 9 * msPerDay, status := RentalStatus.PENDING,
    paymentStatus := PaymentStatus.PENDING }

/-- A sibling PENDING rental for the same equipment. -/
def c8B : Rental := { c8A with id := "r8b", renterId := "u9" }

/-- Store for the C8 scenario. -/
def c8Db : Db :=
  { users := [{ id := "u8", userType := "TENANT" }, { id := "u9", userType := "TENANT" }],
    equipments := [c8E], rentals := [c8A, c8B] }

/-- Witness for C8: the owner approves `c8A`; the equipment flips to
unavailable, the sibling PENDING rental is auto-REJECTED and `approvedAt` is
stamped. -/
theorem c8_approve_witness :
    updateStatus 5 "r8a" RentalStatus.APPROVED "o8" c8Db =
      (.ok { c8A with status := RentalStatus.APPROVED },
       { c8Db with
         equipments := c8Db.equipments.map (fun x =>
           if x.id == c8A.equipmentId then { x with isAvailable := false } else x),
         rentals := c8Db.rentals.map (fun x =>
           if x.id == c8A.id then { x with status := RentalStatus.APPROVED, approvedAt := some 5 }
           else if x.equipmentId == c8A.equipmentId && x.status == RentalStatus.PENDING then
             { x with status := RentalStatus.REJECTED }
           else x) }) :=
  (c8_approve_requires_owner_and_effects 5 c8Db "r8a" "o8" c8A c8E
    (by decide) (by decide) (by decide) (by decide)).2 (by decide)

/-- Claim C4 (amended, for `updateStatus`): on a transition to CANCELLED or
REJECTED the equipment is marked available exactly when the held-rental query
— any rental of the same equipment in APPROVED/PAID/ACTIVE with
`endDate ≥ now`, evaluated on the rentals after the status write — finds
nothing; otherwise the equipment rows are left untouched. -/
theorem c4_release_only_when_no_holder
    (now : Time) (db : Db) (id userId : String) (st : RentalStatus) (r : Rental)
    (hst : st = RentalStatus.CANCELLED ∨ st = RentalStatus.REJECTED)
    (hr : db.rentals.find? (fun x => x.id == id && x.deletedAt == none) = some r)
    (hperm : r.renterId = userId ∨ r.ownerId = userId) :
    (updateStatus now id st userId db).2.rentals =
      db.rentals.map (fun x => if x.id == r.id then { x with status := st } else x) ∧
    (updateStatus now id st userId db).2.equipments =
      (if heldRentalQuery now r.equipmentId none
          (db.rentals.map (fun x => if x.id == r.id then { x with status := st } else x)) = none
       then db.equipments.map (fun x =>
         if x.id == r.equipmentId then { x with isAvailable := true } else x)
       else db.equipments) := by
  have hfind := rentalFindOne_ok db id userId r hr hperm
  have hstA : ¬(st = RentalStatus.APPROVED) := by
    rcases hst with h | h <;> subst h <;> exact fun hc => nomatch hc
  have h1 : ¬(st = RentalStatus.APPROVED ∧ r.ownerId ≠ userId) := fun hc => hstA hc.1
  have h2 : ¬(st = RentalStatus.CANCELLED ∧ r.renterId ≠ userId ∧ r.ownerId ≠ userId) :=
    fun hc => hperm.elim (fun h => hc.2.1 h) (fun h => hc.2.2 h)
  simp only [updateStatus, hfind, if_neg h1, if_neg h2, if_neg hstA, if_pos hst]
  cases hq : heldRentalQuery now r.equipmentId none
      (db.rentals.map (fun x => if x.id == r.id then { x with status := st } else x)) with
  | none => simp [hq]
  | some rr => simp [hq]

/-- The APPROVED holder rental of the C4 scenario. -/
def c4A : Rental :=
  { id := "rA", equipmentId := "e1", renterId := "u9", ownerId := "o1",
    startDate := 0, endDate := 10 * msPerDay, totalAmount := 40, dailyRate := 10,
    returnReminderDate := 9 * msPerDay, status := RentalStatus.APPROVED,
    paymentStatus := PaymentStatus.PENDING }

/-- A PENDING sibling rental for the same equipment. -/
def c4B : Rental := { c4A with id := "rB", renterId := "u2", status := RentalStatus.PENDING }

/-- Store for the C4 scenario: held equipment (unavailable), one APPROVED
holder and one PENDING sibling. -/
def c4Db : Db :=
  { users := [{ id := "u2", userType := "TENANT" }, { id := "u9", userType := "TENANT" }],
    equipments := [{ id := "e1", ownerId := "o1", name := "Drill", isAvailable := false }],
    rentals := [c4A, c4B] }

/-- Claim C4 (counterexample): after `cancelRental` of the PENDING sibling
`c4B`, the held-rental query still finds the APPROVED rental `c4A` with
`endDate ≥ now`, yet the equipment has been marked available — `cancelRental`
releases the equipment unconditionally, so availability does not mirror the
existence of a currently-held rental. -/
theorem c4_counterexample_cancelRental_releases_held_equipment :
    heldRentalQuery 0 "e1" none (cancelRental 0 "rB" "u2" c4Db).2.rentals = some c4A ∧
    (cancelRental 0 "rB" "u2" c4Db).2.equipments.map (fun x => x.isAvailable) = [true] := by
  decide

/-- Witness for the amended C4: cancelling the PENDING sibling through
`updateStatus` leaves the equipment untouched because the APPROVED holder is
still found by the held-rental query. -/
theorem c4_release_witness :
    (updateStatus 0 "rB" RentalStatus.CANCELLED "u2" c4Db).2.rentals =
      c4Db.rentals.map (fun x =>
        if x.id == c4B.id then { x with status := RentalStatus.CANCELLED } else x) ∧
    (updateStatus 0 "rB" RentalStatus.CANCELLED "u2" c4Db).2.equipments =
      (if heldRentalQuery 0 c4B.equipmentId none
          (c4Db.rentals.map (fun x =>
            if x.id == c4B.id then { x with status := RentalStatus.CANCELLED } else x)) = none
       then c4Db.equipments.map (fun x =>
         if x.id == c4B.equipmentId then { x with isAvailable := true } else x)
       else c4Db.equipments) :=
  c4_release_only_when_no_holder 0 c4Db "rB" "u2" RentalStatus.CANCELLED c4B
    (Or.inl rfl) (by decide) (Or.inl (by decide))

/-- Claim C9: whenever the sponsor already has an ACTIVE sponsorship whose
`[startDate, endDate]` window contains `now`, `createSponsorship` fails with a
BadRequest — for every dto, hence regardless of target equipment or target
user — and the store comes back unchanged: no sponsorship row and no wallet
transaction is created. -/
theorem c9_active_sponsorship_blocks_creation
    (now : Time) (sponsorId : String) (dto : CreateSponsorshipDto) (db : Db)
    (sp : AdSponsorship)
    (hs : db.sponsorships.find? (fun x =>
        x.sponsorId == sponsorId && x.status == SponsorshipStatus.ACTIVE &&
        decide (x.startDate ≤ now) && decide (now ≤ x.endDate)) = some sp) :
    ∃ m, createSponsorship now sponsorId dto db = (.error (.badRequest m), db) := by
  by_cases h1 : dto.amount ≤ 0
  · exact ⟨"Amount must be positive", by simp only [createSponsorship, if_pos h1]⟩
  · by_cases h2 : dto.duration ≤ 0
    · exact ⟨"Duration must be positive",
        by simp only [createSponsorship, if_neg h1, if_pos h2]⟩
    · exact ⟨"Você já possui um patrocínio ativo. Aguarde a expiração ou cancele o atual para criar um novo.",
        by simp only [createSponsorship, if_neg h1, if_neg h2, hs]⟩

/-- An ACTIVE sponsorship whose window [10, 90] contains the test time 50. -/
def c9Active : AdSponsorship :=
  { id := "sp0", sponsorId := "u9s", amount := 30, duration := 3,
    startDate := 10, endDate := 90, status := SponsorshipStatus.ACTIVE }

/-- Store for the C9 scenario. -/
def c9Db : Db :=
  { users := [{ id := "u9s", userType := "TENANT" }, { id := "t1", userType := "TENANT" }],
    equipments := [{ id := "e9", ownerId := "u9s", name := "Ad gear", isAvailable := true }],
    wallets := [{ id := "w9", userId := "u9s", balance := 1000 }],
    sponsorships := [c9Active] }

/-- A new sponsorship request naming both a target equipment and a target
user. -/
def c9Dto : CreateSponsorshipDto :=
  { targetUserId := some "t1", equipmentId := some "e9", amount := 10, duration := 5 }

/-- Witness for C9 at a concrete in-window ACTIVE sponsorship. -/
theorem c9_blocks_witness :
    ∃ m, createSponsorship 50 "u9s" c9Dto c9Db = (.error (.badRequest m), c9Db) :=
  c9_active_sponsorship_blocks_creation 50 "u9s" c9Dto c9Db c9Active (by decide)

/-- The period count of the specification: HOURLY bills `days × 8`, WEEKLY
`ceil(days/7)`, MONTHLY `ceil(days/30)` and DAILY `days`. -/
def specPeriodCount (p : PricePeriod) (days : Int) : Int :=
  match p with
  | PricePeriod.HOURLY => days * 8
  | PricePeriod.WEEKLY => jsCeilDiv days 7
  | PricePeriod.MONTHLY => jsCeilDiv days 30
  | PricePeriod.DAILY => days

/-- Claim C6: when no `totalAmount` is supplied, a successful rental creation
computes `totalAmount = dailyRate × periodCount` with
`days = ceil((endDate − startDate)/1 day)` and the period count of the spec,
the price period defaulting to DAILY. The hypotheses are exactly the
validations `RentalService.create` performs before the computation. -/
theorem c6_rentalCreate_total_amount
    (now : Time) (renterId : String) (dto : CreateRentalDto) (db : Db)
    (equipment : Equipment) (renter : User)
    (he : db.equipments.find? (fun x => x.id == dto.equipmentId && x.deletedAt == none) =
      some equipment)
    (hav : equipment.isAvailable = true)
    (hown : equipment.ownerId ≠ renterId)
    (hu : db.users.find? (fun x => x.id == renterId) = some renter)
    (hland : renter.userType ≠ "LANDLORD")
    (hstart : msPerDay * (now.fdiv msPerDay) ≤ dto.startDate)
    (hend : dto.startDate < dto.endDate)
    (hmax : (match dto.maxRentalDays with
             | some m => !(m == 0) && decide (m < jsCeilDiv (dto.endDate - dto.startDate) msPerDay)
             | none => false) = false)
    (hnone : dto.totalAmount = none) :
    ∃ rental db2, rentalCreate now renterId dto db = (.ok rental, db2) ∧
      rental.totalAmount =
        jsOrInt dto.dailyRate (jsOrInt equipment.price 0) *
          specPeriodCount ((effectivePeriod dto equipment).getD PricePeriod.DAILY)
            (jsCeilDiv (dto.endDate - dto.startDate) msPerDay) := by
  have hq1 : ¬¬(equipment.isAvailable = true) := fun hc => hc hav
  have hq2 : ¬(dto.startDate < msPerDay * (now.fdiv msPerDay)) := not_lt.mpr hstart
  have hq3 : ¬(dto.endDate ≤ dto.startDate) := not_le.mpr hend
  have hq4 : ¬((match dto.maxRentalDays with
      | some m => !(m == 0) && decide (m < jsCeilDiv (dto.endDate - dto.startDate) msPerDay)
      | none => false) = true) := by rw [hmax]; exact fun hc => nomatch hc
  simp only [rentalCreate, he, hu, if_neg hq1, if_neg hown, if_neg hland, if_neg hq2,
    if_neg hq3, if_neg hq4]
  refine ⟨_, _, rfl, ?_⟩
  simp only [rentalTotalAmount, hnone, intFalsy]
  cases hpp : effectivePeriod dto equipment with
  | none => simp [specPeriodCount, hpp]
  | some p => cases p <;> simp [specPeriodCount, hpp, mul_assoc]

/-- Equipment and store for the C6 examples. -/
def c6E : Equipment := { id := "e6", ownerId := "o6", name := "Lift", isAvailable := true }

/-- Store for the C6 examples. -/
def c6Db : Db :=
  { users := [{ id := "u6", userType := "TENANT" }], equipments := [c6E] }

/-- Epoch milliseconds of 2024-03-01T00:00:00Z. -/
def c6Now : Time := 1709251200000

/-- The dto of the spec example: `dailyRate = 50`, `startDate = 2024-03-01`,
`endDate = 2024-03-05` (4 days), no `totalAmount`, price period `p`. -/
def c6Dto (p : PricePeriod) : CreateRentalDto :=
  { startDate := 1709251200000, endDate := 1709596800000,
    dailyRate := some 50, pricePeriod := some p,
    paymentMethod := RentalPayMethod.REFERENCE, equipmentId := "e6" }

/-- Witness for C6 on the four examples of the spec: DAILY yields 200, HOURLY
1600, WEEKLY 50 and MONTHLY 50. -/
theorem c6_examples_witness :
    (∃ rental db2, rentalCreate c6Now "u6" (c6Dto PricePeriod.DAILY) c6Db = (.ok rental, db2) ∧
      rental.totalAmount = 200) ∧
    (∃ rental db2, rentalCreate c6Now "u6" (c6Dto PricePeriod.HOURLY) c6Db = (.ok rental, db2) ∧
      rental.totalAmount = 1600) ∧
    (∃ rental db2, rentalCreate c6Now "u6" (c6Dto PricePeriod.WEEKLY) c6Db = (.ok rental, db2) ∧
      rental.totalAmount = 50) ∧
    (∃ rental db2, rentalCreate c6Now "u6" (c6Dto PricePeriod.MONTHLY) c6Db = (.ok rental, db2) ∧
      rental.totalAmount = 50) := by
  refine ⟨?_, ?_, ?_, ?_⟩
  · obtain ⟨rental, db2, h1, h2⟩ :=
      c6_rentalCreate_total_amount c6Now "u6" (c6Dto PricePeriod.DAILY) c6Db c6E
        { id := "u6", userType := "TENANT" } (by decide) (by decide) (by decide) (by decide)
        (by decide) (by decide) (by decide) (by decide) (by decide)
    exact ⟨rental, db2, h1, h2.trans (by decide)⟩
  · obtain ⟨rental, db2, h1, h2⟩ :=
      c6_rentalCreate_total_amount c6Now "u6" (c6Dto PricePeriod.HOURLY) c6Db c6E
        { id := "u6", userType := "TENANT" } (by decide) (by decide) (by decide) (by decide)
        (by decide) (by decide) (by decide) (by decide) (by decide)
    exact ⟨rental, db2, h1, h2.trans (by decide)⟩
  · obtain ⟨rental, db2, h1, h2⟩ :=
      c6_rentalCreate_total_amount c6Now "u6" (c6Dto PricePeriod.WEEKLY) c6Db c6E
        { id := "u6", userType := "TENANT" } (by decide) (by decide) (by decide) (by decide)
        (by decide) (by decide) (by decide) (by decide) (by decide)
    exact ⟨rental, db2, h1, h2.trans (by decide)⟩
  · obtain ⟨rental, db2, h1, h2⟩ :=
      c6_rentalCreate_total_amount c6Now "u6" (c6Dto PricePeriod.MONTHLY) c6Db c6E
        { id := "u6", userType := "TENANT" } (by decide) (by decide) (by decide) (by decide)
        (by decide) (by decide) (by decide) (by decide) (by decide)
    exact ⟨rental, db2, h1, h2.trans (by decide)⟩

/-- The rentals table after one sweep iteration: only the status write of the
cancelled rental is visible there (the equipment release touches another
table). -/
theorem sweepCancelOne_rentals (now : Time) (db : Db) (r0 : Rental) :
    (sweepCancelOne now db r0).rentals =
      db.rentals.map (fun x =>
        if x.id == r0.id then { x with status := RentalStatus.CANCELLED } else x) := by
  unfold sweepCancelOne
  dsimp only
  split <;> rfl

/-- Projecting the sweep fold to the rentals table. -/
theorem sweepFold_rentals (now : Time) (es : List Rental) (db : Db) :
    (es.foldl (sweepCancelOne now) db).rentals =
      es.foldl (fun acc r0 => acc.map (fun x =>
        if x.id == r0.id then { x with status := RentalStatus.CANCELLED } else x)) db.rentals := by
  induction es generalizing db with
  | nil => rfl
  | cons e es ih =>
    simp only [List.foldl_cons]
    rw [ih, sweepCancelOne_rentals]

/-- Folding the per-item cancellation over a list of rentals equals one map
that cancels every rental whose id occurs in that list. -/
theorem foldCancel_eq_map (es rs : List Rental) :
    es.foldl (fun acc r0 => acc.map (fun x =>
        if x.id == r0.id then { x with status := RentalStatus.CANCELLED } else x)) rs =
      rs.map (fun x =>
        if es.any (fun e => x.id == e.id) then { x with status := RentalStatus.CANCELLED } else x) := by
  induction es generalizing rs with
  | nil => simp
  | cons e es ih =>
    simp only [List.foldl_cons]
    rw [ih, List.map_map]
    refine List.map_congr_left (fun x _ => ?_)
    simp only [Function.comp_apply, List.any_cons]
    by_cases hx : x.id = e.id
    · by_cases h2 : es.any (fun e2 => x.id == e2.id) = true
      · simp [hx, h2]
      · simp [hx, h2]
    · simp [hx]

/-- For a rental of a table with no duplicate ids, some filtered row shares
its id exactly when the rental itself passes the filter. -/
theorem any_filter_id_eq (p : Rental → Bool) (rs : List Rental)
    (hnodup : (rs.map (fun x => x.id)).Nodup) (x : Rental) (hx : x ∈ rs) :
    (rs.filter p).any (fun e => x.id == e.id) = p x := by
  by_cases hpx : p x = true
  · rw [hpx]
    exact List.any_eq_true.mpr ⟨x, List.mem_filter.mpr ⟨hx, hpx⟩, by simp⟩
  · have hfalse : p x = false := by
      cases hv : p x with
      | false => rfl
      | true => exact (hpx hv).elim
    rw [hfalse]
    rw [List.any_eq_false]
    intro e he hid
    have hmem := List.mem_filter.mp he
    have hid2 : x.id = e.id := by simpa using hid
    have hxe : x = e := List.inj_on_of_nodup_map hnodup hx hmem.1 hid2
    rw [← hxe] at hmem
    rw [hfalse] at hmem
    exact nomatch hmem.2

/-- Claim C7: over a rentals table with unique ids,
`cancelExpiredApprovedRentals` returns exactly the rentals with
`status = APPROVED`, `paymentStatus = PENDING` and
`approvedAt ≤ now − timeoutHours`, and the resulting table is the original
one with exactly those rentals set to CANCELLED — every other rental is left
untouched. -/
theorem c7_sweep_cancels_exactly_expired
    (now timeoutHours : Int) (db : Db)
    (hnodup : (db.rentals.map (fun x => x.id)).Nodup) :
    (cancelExpiredApprovedRentals now timeoutHours db).1 =
      .ok (db.rentals.filter (expiredApprovedPred (now - timeoutHours * msPerHour))) ∧
    (cancelExpiredApprovedRentals now timeoutHours db).2.rentals =
      db.rentals.map (fun x =>
        if expiredApprovedPred (now - timeoutHours * msPerHour) x
        then { x with status := RentalStatus.CANCELLED } else x) := by
  constructor
  · rfl
  · have hsnd : (cancelExpiredApprovedRentals now timeoutHours db).2 =
        (db.rentals.filter (expiredApprovedPred (now - timeoutHours * msPerHour))).foldl
          (sweepCancelOne now) db := rfl
    rw [hsnd, sweepFold_rentals, foldCancel_eq_map]
    refine List.map_congr_left (fun x hx => ?_)
    rw [any_filter_id_eq (expiredApprovedPred (now - timeoutHours * msPerHour)) db.rentals
      hnodup x hx]

/-- A rental approved 25 hours before the test time (APPROVED, unpaid). -/
def c7R25 : Rental :=
  { id := "r25", equipmentId := "e7", renterId := "u7", ownerId := "o7",
    startDate := 0, endDate := 200 * msPerHour, totalAmount := 40, dailyRate := 10,
    returnReminderDate := 0, status := RentalStatus.APPROVED,
    paymentStatus := PaymentStatus.PENDING, approvedAt := some (75 * msPerHour) }

/-- A rental approved 23 hours before the test time (APPROVED, unpaid). -/
def c7R23 : Rental := { c7R25 with id := "r23", approvedAt := some (77 * msPerHour) }

/-- Store for the C7 scenario (test time 100 h, timeout 24 h). -/
def c7Db : Db :=
  { equipments := [{ id := "e7", ownerId := "o7", name := "Saw", isAvailable := false }],
    rentals := [c7R25, c7R23] }

/-- Witness for C7: with timeout 24 h, the sweep cancels the rental approved
25 hours ago and leaves the one approved 23 hours ago untouched. -/
theorem c7_sweep_witness :
    (cancelExpiredApprovedRentals (100 * msPerHour) 24 c7Db).1 = .ok [c7R25] ∧
    (cancelExpiredApprovedRentals (100 * msPerHour) 24 c7Db).2.rentals =
      [{ c7R25 with status := RentalStatus.CANCELLED }, c7R23] := by
  have h := c7_sweep_cancels_exactly_expired (100 * msPerHour) 24 c7Db (by decide)
  exact ⟨by rw [h.1]; exact congrArg Except.ok (by decide), by rw [h.2]; decide⟩

end YmRentals
